import Mathlib

/-!
Shallow embedding of the `async-ratatui` core: the entity physics model
(`src/entity.rs`) and the Elm-style application model with its update function
(`src/lib.rs`).  `f64` values are embedded as exact rationals (`ℚ`), `u16`
coordinates as `ℕ`.  The IO-bound collaborators (terminal driver, canvas,
random number generator) are factored out as parameters: the terminal height
used by `Tui::update` becomes an explicit `height : ℕ` argument and the
`random::<bool>()` draw becomes an explicit `coin : Bool` argument.
-/

namespace AsyncRatatui

/-- The `ratatui::style::Color` variants the program uses (`Blue`, `Red`,
`Black`). -/
inductive Color where
  | Blue
  | Red
  | Black
  deriving DecidableEq, Repr

/-- `ratatui::widgets::canvas::Circle`: position, radius and color of a drawn
circle. -/
structure Circle where
  x : ℚ
  y : ℚ
  radius : ℚ
  color : Color
  deriving DecidableEq, Repr

/-- `ratatui::widgets::canvas::Rectangle`: position, width, height and color of
a drawn rectangle. -/
structure Rectangle where
  x : ℚ
  y : ℚ
  width : ℚ
  height : ℚ
  color : Color
  deriving DecidableEq, Repr

/-- `entity.rs`: `pub struct Balloon { pub circle: Circle, pub velocity_y: f64 }`. -/
structure Balloon where
  circle : Circle
  velocity_y : ℚ
  deriving DecidableEq, Repr

/-- `entity.rs`: `pub struct Brick { pub rectangle: Rectangle, pub velocity_y: f64 }`. -/
structure Brick where
  rectangle : Rectangle
  velocity_y : ℚ
  deriving DecidableEq, Repr

/-- `entity.rs`: `pub enum Entity { Balloon(Balloon), Brick(Brick) }`. -/
inductive Entity where
  | balloon (b : Balloon)
  | brick (b : Brick)
  deriving DecidableEq, Repr

/-- The balloon's gravity constant: `let gravity = 0.10;` in `Balloon::tick`. -/
def balloonGravity : ℚ := 1 / 10

/-- The brick's gravity constant: `let gravity = 0.75;` in `Brick::tick`. -/
def brickGravity : ℚ := 3 / 4

/-- `Balloon::tick` (entity.rs lines 29-40): add gravity to the velocity, add
the updated velocity to `circle.y`, then clamp: if `circle.y < radius`, set
`circle.y = radius` and zero the velocity.  The sequential field mutations are
inlined: the `y` update reads the already-updated velocity. -/
def Balloon.tick (self : Balloon) : Balloon :=
  if self.circle.y + (self.velocity_y + balloonGravity) < self.circle.radius then
    { circle := { self.circle with y := self.circle.radius }, velocity_y := 0 }
  else
    { circle := { self.circle with y := self.circle.y + (self.velocity_y + balloonGravity) },
      velocity_y := self.velocity_y + balloonGravity }

/-- `Brick::tick` (entity.rs lines 65-76): add gravity to the velocity,
subtract the updated velocity from `rectangle.y`, then clamp: if
`rectangle.y <= height`, set `rectangle.y = height` and zero the velocity. -/
def Brick.tick (self : Brick) : Brick :=
  if self.rectangle.y - (self.velocity_y + brickGravity) ≤ self.rectangle.height then
    { rectangle := { self.rectangle with y := self.rectangle.height }, velocity_y := 0 }
  else
    { rectangle := { self.rectangle with
        y := self.rectangle.y - (self.velocity_y + brickGravity) },
      velocity_y := self.velocity_y + brickGravity }

/-- `impl Drawable for Entity`: `tick` dispatches on the variant. -/
def Entity.tick : Entity → Entity
  | .balloon b => .balloon b.tick
  | .brick b => .brick b.tick

/-- The entity's current x coordinate (`circle.x` or `rectangle.x`). -/
def Entity.x : Entity → ℚ
  | .balloon b => b.circle.x
  | .brick b => b.rectangle.x

/-- The entity's current y coordinate (`circle.y` or `rectangle.y`). -/
def Entity.y : Entity → ℚ
  | .balloon b => b.circle.y
  | .brick b => b.rectangle.y

/-- The entity's vertical velocity. -/
def Entity.velocity_y : Entity → ℚ
  | .balloon b => b.velocity_y
  | .brick b => b.velocity_y

/-- The variant-specific floor (`bottom_y` in the two `tick` bodies): the
circle's radius for a balloon, the rectangle's height for a brick. -/
def Entity.floor : Entity → ℚ
  | .balloon b => b.circle.radius
  | .brick b => b.rectangle.height

/-- The entity's variant tag together with its size and color data — everything
except position and velocity.  Used to state that an operation leaves the
variant, size and color of an entity unchanged. -/
def Entity.variantData : Entity → (ℚ × Color) ⊕ (ℚ × ℚ × Color)
  | .balloon b => Sum.inl (b.circle.radius, b.circle.color)
  | .brick b => Sum.inr (b.rectangle.width, b.rectangle.height, b.rectangle.color)

/-- Modelled from the spec: `FpsCounter` lives in `src/fps_counter.rs`, which is
not among the provided source files.  The spec treats it as an opaque counter:
"`tick()` → record one render event, update the rolling rate estimate;
`current_rate()` → last computed rate for display".  We model the recorded
render events as a count; the displayed rate `fps` (read by `view`) depends on
wall-clock time and is left untouched by the model's `tick`. -/
structure FpsCounter where
  frames : ℕ
  fps : ℚ
  deriving DecidableEq, Repr

/-- Modelled from the spec: a fresh counter with no recorded events. -/
def FpsCounter.new : FpsCounter :=
  { frames := 0, fps := 0 }

/-- Modelled from the spec: record one render event. -/
def FpsCounter.tick (self : FpsCounter) : FpsCounter :=
  { self with frames := self.frames + 1 }

/-- `lib.rs`: `pub struct Model` — pointer position, settled entities, the
preview (`hover_entity`) and the FPS counter. -/
structure Model where
  hover_pos : ℕ × ℕ
  entities : List Entity
  hover_entity : Entity
  fps_counter : FpsCounter
  deriving DecidableEq, Repr

/-- `lib.rs`: `pub enum Message`. -/
inductive Message where
  | Quit
  | Tick
  | Render
  | MouseLeftClick (row col : ℕ)
  | MouseHoverPos (row col : ℕ)
  deriving DecidableEq, Repr

/-- `lib.rs`: `pub enum UpdateCommand { None, Quit }`. -/
inductive UpdateCommand where
  | None
  | Quit
  deriving DecidableEq, Repr

/-- The model built by `Tui::new` (lib.rs lines 62-79): no settled entities,
pointer at `(0, 0)`, a fresh FPS counter, and a default preview balloon at the
origin with radius 1, color blue and velocity 0. -/
def Model.initial : Model :=
  { hover_pos := (0, 0)
    entities := []
    fps_counter := FpsCounter.new
    hover_entity := .balloon
      { circle := { x := 0, color := .Blue, radius := 1, y := 0 }
        velocity_y := 0 } }

/-- `Tui::update` (lib.rs lines 168-233).  `height` stands for
`self.terminal.size()?.height` and `coin` for the `random::<bool>()` draw used
by the click branch (both unused by the other branches).  The `Render` branch's
`view()` call only draws; its model effect is the FPS counter tick. -/
def Tui.update (height : ℕ) (coin : Bool) (model : Model) :
    Message → Model × UpdateCommand
  | .Quit => (model, .Quit)
  | .Tick =>
      ({ model with entities := model.entities.map Entity.tick }, .None)
  | .Render =>
      ({ model with fps_counter := model.fps_counter.tick }, .None)
  | .MouseLeftClick row col =>
      let clicked_entity := model.hover_entity
      let new_entity : Entity :=
        if coin then
          .balloon
            { circle :=
                { x := (col : ℚ), y := (height : ℚ) - (row : ℚ), radius := 1, color := .Blue }
              velocity_y := 0 }
        else
          .brick
            { rectangle :=
                { x := (col : ℚ), y := (height : ℚ) - (row : ℚ), width := 1, height := 1,
                  color := .Red }
              velocity_y := 0 }
      ({ model with
          entities := model.entities ++ [clicked_entity]
          hover_entity := new_entity }, .None)
  | .MouseHoverPos row col =>
      let hover_entity : Entity :=
        match model.hover_entity with
        | .balloon b =>
            .balloon { b with circle :=
              { b.circle with x := (col : ℚ), y := (height : ℚ) - (row : ℚ) } }
        | .brick b =>
            .brick { b with rectangle :=
              { b.rectangle with x := (col : ℚ), y := (height : ℚ) - (row : ℚ) } }
      ({ model with hover_pos := (row, col), hover_entity := hover_entity }, .None)

/-- One recorded input to an `update` step: the terminal height and random draw
observed at that step, and the message. -/
structure StepInput where
  height : ℕ
  coin : Bool
  msg : Message
  deriving DecidableEq, Repr

/-- Run the update function over a sequence of messages (the run loop's
consumption of the ordered message stream), keeping the mutated model. -/
def runUpdates (model : Model) (steps : List StepInput) : Model :=
  steps.foldl (fun acc s => (Tui.update s.height s.coin acc s.msg).1) model

/-- Apply one-step physics to the entity at index `i` of the settled list,
leaving the others alone; `tickInOrder` then processes a list of indices in the
given order.  `Tui::update`'s `Tick` branch iterates the settled list front to
back, which corresponds to the order `List.range`. -/
def tickInOrder (l : List Entity) (order : List ℕ) : List Entity :=
  order.foldl (fun acc i => acc.modify Entity.tick i) l

/-! ### Helper lemmas on single ticks -/

/-- After a balloon tick, `y` is at least the radius: the clamp branch sets it
to exactly the radius; the other branch ran because the new `y` was not below
it. -/
theorem Balloon.tick_radius_le (b : Balloon) : b.tick.circle.radius ≤ b.tick.circle.y := by
  unfold Balloon.tick
  split_ifs with h
  · simp
  · simpa using le_of_not_lt h

/-- After a brick tick, `y` is at least the height. -/
theorem Brick.tick_height_le (b : Brick) : b.tick.rectangle.height ≤ b.tick.rectangle.y := by
  unfold Brick.tick
  split_ifs with h
  · simp
  · simpa using le_of_not_le h

/-- After any single entity tick, `y` is at least the variant floor. -/
theorem Entity.tick_floor_le (e : Entity) : e.tick.floor ≤ e.tick.y := by
  cases e with
  | balloon b => simpa [Entity.tick, Entity.floor, Entity.y] using b.tick_radius_le
  | brick b => simpa [Entity.tick, Entity.floor, Entity.y] using b.tick_height_le

/-- A sample entity for witnesses: a balloon below its own floor with a
downward velocity. -/
def sampleEntity : Entity :=
  .balloon { circle := { x := 2, y := 0, radius := 1, color := .Blue }, velocity_y := -5 }

/-- C1: for every entity (balloon or brick), after any number (at least one) of
Tick applications starting from any state, the entity's y coordinate is at
least its variant floor: the circle's radius for a balloon, the rectangle's
height for a brick. -/
theorem C1_y_ge_floor_after_ticks (e : Entity) (n : ℕ) (h : 1 ≤ n) :
    (Entity.tick^[n] e).floor ≤ (Entity.tick^[n] e).y := by
  obtain ⟨m, rfl⟩ : ∃ m, n = m + 1 := ⟨n - 1, by omega⟩
  rw [Function.iterate_succ_apply']
  exact Entity.tick_floor_le _

/-- C1 witness: the floor invariant evaluated after two ticks of a concrete
balloon that starts below its floor. -/
theorem C1_y_ge_floor_after_ticks_witness :
    1 ≤ 2 ∧ (Entity.tick^[2] sampleEntity).floor ≤ (Entity.tick^[2] sampleEntity).y :=
  ⟨by decide, C1_y_ge_floor_after_ticks sampleEntity 2 (by decide)⟩

/-- A concrete balloon whose first tick triggers the floor clamp: radius 1,
`y = 0`, velocity 0, so the tick computes `y = 0.1 < 1` and clamps. -/
def clampedBalloon : Balloon :=
  { circle := { x := 0, y := 0, radius := 1, color := .Blue }, velocity_y := 0 }

/-- C3 counterexample: a tick of `clampedBalloon` triggers the floor clamp
(leaving `y` exactly at the radius and velocity 0), yet the very next tick
gives it a nonzero velocity (the gravity constant), so velocity does not
stay 0 for the floating variant. -/
theorem C3_counterexample :
    clampedBalloon.tick.circle.y = clampedBalloon.tick.circle.radius ∧
    clampedBalloon.tick.velocity_y = 0 ∧
    clampedBalloon.tick.tick.velocity_y ≠ 0 := by
  have h : clampedBalloon.tick =
      { circle := { x := 0, y := 1, radius := 1, color := .Blue }, velocity_y := 0 } := by
    unfold clampedBalloon Balloon.tick
    rw [if_pos (by norm_num [balloonGravity])]
  have h2 : clampedBalloon.tick.tick.velocity_y = balloonGravity := by
    rw [h]
    unfold Balloon.tick
    rw [if_neg (by norm_num [balloonGravity])]
    norm_num
  refine ⟨by rw [h], by rw [h], ?_⟩
  rw [h2]
  norm_num [balloonGravity]

/-- C3 amended: once a Tick has triggered the floor clamp, no further Tick
takes y below the floor again; for the falling variant (brick) the clamped
state is a fixed point of Tick, so velocity stays 0 and y stays exactly at the
floor, but for the floating variant (balloon) the next Tick re-adds gravity to
the velocity, so its velocity does not stay 0 (the balloon rises off the
floor with velocity equal to the gravity constant). -/
theorem C3_amended_clamped_behavior :
    (∀ b : Brick, b.rectangle.y = b.rectangle.height → b.velocity_y = 0 → b.tick = b) ∧
    (∀ e : Entity, e.tick.floor ≤ e.tick.y) ∧
    (∀ b : Balloon, b.circle.y = b.circle.radius → b.velocity_y = 0 →
      b.tick.velocity_y = balloonGravity) := by
  refine ⟨?_, fun e => Entity.tick_floor_le e, ?_⟩
  · intro b hy hv
    unfold Brick.tick
    rw [if_pos (by rw [hy, hv]; norm_num [brickGravity])]
    cases b with
    | mk rect v =>
        cases rect
        simp_all
  · intro b hy hv
    unfold Balloon.tick
    rw [if_neg (by rw [hy, hv]; norm_num [balloonGravity])]
    simp [hv]

/-- A concrete brick resting clamped on its floor: `y = height = 1`,
velocity 0. -/
def restingBrick : Brick :=
  { rectangle := { x := 0, y := 1, width := 1, height := 1, color := .Red }, velocity_y := 0 }

/-- C3 amended witness: the brick fixed-point clause evaluated on a concrete
clamped brick. -/
theorem C3_amended_clamped_behavior_witness :
    restingBrick.tick = restingBrick :=
  C3_amended_clamped_behavior.1 restingBrick rfl rfl

/-- C4: the update function yields `UpdateCommand.Quit` exactly on the `Quit`
message — `Tick`, `Render`, `MouseLeftClick` and `MouseHoverPos` all yield
`UpdateCommand.None` — and the `Quit` branch returns the model unchanged. -/
theorem C4_quit_iff_terminate (height : ℕ) (coin : Bool) (m : Model) (msg : Message) :
    ((Tui.update height coin m msg).2 = .Quit ↔ msg = .Quit) ∧
    (Tui.update height coin m .Quit).1 = m := by
  refine ⟨⟨fun h => ?_, fun h => by subst h; rfl⟩, rfl⟩
  cases msg <;> simp_all [Tui.update]

/-- C2 counterexample: clicking at `(row, col) = (5, 20)` with terminal height
24 on the initial model commits the default preview balloon, whose position is
the origin `(0, 0)` — not the converted click coordinates `(20, 19)`.  The
click coordinates only position the freshly spawned preview. -/
theorem C2_counterexample :
    ((Tui.update 24 true Model.initial (.MouseLeftClick 5 20)).1.entities.map
        (fun e => (e.x, e.y))) ≠ [((20 : ℚ), (19 : ℚ))] := by
  norm_num [Tui.update, Model.initial, Entity.x, Entity.y, Prod.ext_iff]

/-- C2 amended: processing `MouseLeftClick(row, col)` increases the
settled-entity list length by exactly 1 and replaces the preview entity; the
newly committed entity is the previous preview and sits at the preview's
position at click time, while it is the replacement preview whose position
equals the converted canvas coordinates of the click (`x = col`,
`y = terminal_height - row`), with velocity 0. -/
theorem C2_amended_click_commits_preview (height : ℕ) (coin : Bool) (m : Model) (row col : ℕ) :
    (Tui.update height coin m (.MouseLeftClick row col)).1.entities.length
        = m.entities.length + 1 ∧
    (Tui.update height coin m (.MouseLeftClick row col)).1.entities
        = m.entities ++ [m.hover_entity] ∧
    ((Tui.update height coin m (.MouseLeftClick row col)).1.entities.getLast?.map
        (fun e => (e.x, e.y))) = some (m.hover_entity.x, m.hover_entity.y) ∧
    (Tui.update height coin m (.MouseLeftClick row col)).1.hover_entity.x = (col : ℚ) ∧
    (Tui.update height coin m (.MouseLeftClick row col)).1.hover_entity.y
        = (height : ℚ) - (row : ℚ) ∧
    (Tui.update height coin m (.MouseLeftClick row col)).1.hover_entity.velocity_y = 0 := by
  cases coin <;>
    simp [Tui.update, Entity.x, Entity.y, Entity.velocity_y, List.getLast?_concat]

/-- C6: starting from the initial model with terminal height 24, processing
`MouseHoverPos(5, 20)` then `MouseLeftClick(5, 20)` leaves exactly one settled
entity, positioned at `(20, 19)`, and installs a new preview entity at
`(20, 19)` with velocity 0, whichever variant the random draw chooses. -/
theorem C6_hover_then_click_scenario (coin : Bool) :
    ((Tui.update 24 coin (Tui.update 24 coin Model.initial (.MouseHoverPos 5 20)).1
        (.MouseLeftClick 5 20)).1.entities.map (fun e => (e.x, e.y)))
      = [((20 : ℚ), (19 : ℚ))] ∧
    (Tui.update 24 coin (Tui.update 24 coin Model.initial (.MouseHoverPos 5 20)).1
        (.MouseLeftClick 5 20)).1.entities.length = 1 ∧
    (Tui.update 24 coin (Tui.update 24 coin Model.initial (.MouseHoverPos 5 20)).1
        (.MouseLeftClick 5 20)).1.hover_entity.x = 20 ∧
    (Tui.update 24 coin (Tui.update 24 coin Model.initial (.MouseHoverPos 5 20)).1
        (.MouseLeftClick 5 20)).1.hover_entity.y = 19 ∧
    (Tui.update 24 coin (Tui.update 24 coin Model.initial (.MouseHoverPos 5 20)).1
        (.MouseLeftClick 5 20)).1.hover_entity.velocity_y = 0 := by
  cases coin <;>
    norm_num [Tui.update, Model.initial, Entity.x, Entity.y, Entity.velocity_y]

/-- C7: processing `MouseHoverPos(row, col)` leaves the settled-entity list and
the FPS counter unchanged; it sets the stored pointer position to `(row, col)`
and moves the preview entity to `x = col`, `y = terminal_height - row`, keeping
its variant, size, color and velocity; and it yields `Continue`
(`UpdateCommand.None`). -/
theorem C7_hover_mutates_only_preview (height : ℕ) (coin : Bool) (m : Model) (row col : ℕ) :
    (Tui.update height coin m (.MouseHoverPos row col)).1.entities = m.entities ∧
    (Tui.update height coin m (.MouseHoverPos row col)).1.fps_counter = m.fps_counter ∧
    (Tui.update height coin m (.MouseHoverPos row col)).1.hover_pos = (row, col) ∧
    (Tui.update height coin m (.MouseHoverPos row col)).1.hover_entity.x = (col : ℚ) ∧
    (Tui.update height coin m (.MouseHoverPos row col)).1.hover_entity.y
        = (height : ℚ) - (row : ℚ) ∧
    (Tui.update height coin m (.MouseHoverPos row col)).1.hover_entity.velocity_y
        = m.hover_entity.velocity_y ∧
    (Tui.update height coin m (.MouseHoverPos row col)).1.hover_entity.variantData
        = m.hover_entity.variantData ∧
    (Tui.update height coin m (.MouseHoverPos row col)).2 = .None := by
  cases h : m.hover_entity <;>
    simp [Tui.update, h, Entity.x, Entity.y, Entity.velocity_y, Entity.variantData]

/-- The balloon tick's clamp condition, phrased on the pre-tick state: the
position the tick computes (`y` plus the updated velocity) lies strictly below
the radius. -/
def Balloon.clamps (self : Balloon) : Prop :=
  self.circle.y + (self.velocity_y + balloonGravity) < self.circle.radius

instance (b : Balloon) : Decidable b.clamps := by
  unfold Balloon.clamps
  infer_instance

/-- The brick tick's clamp condition, phrased on the pre-tick state: the
position the tick computes (`y` minus the updated velocity) lies at or below
the height. -/
def Brick.clamps (self : Brick) : Prop :=
  self.rectangle.y - (self.velocity_y + brickGravity) ≤ self.rectangle.height

instance (b : Brick) : Decidable b.clamps := by
  unfold Brick.clamps
  infer_instance

/-- An unclamped balloon tick accumulates gravity into the velocity and adds
the updated velocity to `y`. -/
theorem Balloon.tick_of_not_clamps (b : Balloon) (h : ¬ b.clamps) :
    b.tick = { circle := { b.circle with y := b.circle.y + (b.velocity_y + balloonGravity) },
               velocity_y := b.velocity_y + balloonGravity } := by
  unfold Balloon.clamps at h
  unfold Balloon.tick
  rw [if_neg h]

/-- An unclamped brick tick accumulates gravity into the velocity and subtracts
the updated velocity from `y`. -/
theorem Brick.tick_of_not_clamps_brick (b : Brick) (h : ¬ b.clamps) :
    b.tick = { rectangle := { b.rectangle with
                 y := b.rectangle.y - (b.velocity_y + brickGravity) },
               velocity_y := b.velocity_y + brickGravity } := by
  unfold Brick.clamps at h
  unfold Brick.tick
  rw [if_neg h]

/-- Velocity accumulation for a balloon: `n` unclamped ticks add `n` times the
gravity constant to the velocity. -/
theorem Balloon.velocity_after_ticks (b : Balloon) (n : ℕ)
    (hc : ∀ k < n, ¬ (Balloon.tick^[k] b).clamps) :
    (Balloon.tick^[n] b).velocity_y = b.velocity_y + n * balloonGravity := by
  induction n with
  | zero => simp
  | succ m ih =>
      have hv := ih (fun k hk => hc k (by omega))
      rw [Function.iterate_succ_apply', Balloon.tick_of_not_clamps _ (hc m (by omega))]
      dsimp only
      rw [hv]
      push_cast
      ring

/-- Velocity accumulation for a brick: `n` unclamped ticks add `n` times the
gravity constant to the velocity. -/
theorem Brick.velocity_after_ticks_brick (b : Brick) (n : ℕ)
    (hc : ∀ k < n, ¬ (Brick.tick^[k] b).clamps) :
    (Brick.tick^[n] b).velocity_y = b.velocity_y + n * brickGravity := by
  induction n with
  | zero => simp
  | succ m ih =>
      have hv := ih (fun k hk => hc k (by omega))
      rw [Function.iterate_succ_apply', Brick.tick_of_not_clamps_brick _ (hc m (by omega))]
      dsimp only
      rw [hv]
      push_cast
      ring

/-- C5: a balloon starting with velocity 0 that is never clamped during `n`
ticks has velocity `n × 0.10` after `n` ticks, and a brick analogously has
velocity `n × 0.75`; the two gravity constants differ (`0.10` vs `0.75`), and
the position updates have opposite signs: an unclamped balloon tick adds the
updated velocity to `y` while an unclamped brick tick subtracts it. -/
theorem C5_gravity_accumulation (b : Balloon) (br : Brick) (n : ℕ)
    (hb : b.velocity_y = 0) (hbr : br.velocity_y = 0)
    (hcb : ∀ k < n, ¬ (Balloon.tick^[k] b).clamps)
    (hcbr : ∀ k < n, ¬ (Brick.tick^[k] br).clamps) :
    (Balloon.tick^[n] b).velocity_y = n * balloonGravity ∧
    (Brick.tick^[n] br).velocity_y = n * brickGravity ∧
    balloonGravity = 1 / 10 ∧ brickGravity = 3 / 4 ∧
    (∀ b' : Balloon, ¬ b'.clamps →
      b'.tick.circle.y = b'.circle.y + b'.tick.velocity_y) ∧
    (∀ br' : Brick, ¬ br'.clamps →
      br'.tick.rectangle.y = br'.rectangle.y - br'.tick.velocity_y) := by
  refine ⟨?_, ?_, rfl, rfl, ?_, ?_⟩
  · rw [Balloon.velocity_after_ticks b n hcb, hb, zero_add]
  · rw [Brick.velocity_after_ticks_brick br n hcbr, hbr, zero_add]
  · intro b' h
    rw [Balloon.tick_of_not_clamps _ h]
  · intro br' h
    rw [Brick.tick_of_not_clamps_brick _ h]

/-- A balloon far above its floor, used as a witness input. -/
def witnessBalloon : Balloon :=
  { circle := { x := 0, y := 10, radius := 1, color := .Blue }, velocity_y := 0 }

/-- A brick far above its floor, used as a witness input. -/
def witnessBrick : Brick :=
  { rectangle := { x := 0, y := 100, width := 1, height := 1, color := .Red },
    velocity_y := 0 }

/-- C5 witness: the accumulation evaluated for one tick of a concrete balloon
and brick, with the no-clamp hypotheses checked concretely. -/
theorem C5_gravity_accumulation_witness :
    (∀ k < 1, ¬ (Balloon.tick^[k] witnessBalloon).clamps) ∧
    (∀ k < 1, ¬ (Brick.tick^[k] witnessBrick).clamps) ∧
    (Balloon.tick^[1] witnessBalloon).velocity_y = (1 : ℕ) * balloonGravity ∧
    (Brick.tick^[1] witnessBrick).velocity_y = (1 : ℕ) * brickGravity := by
  have h1 : ∀ k < 1, ¬ (Balloon.tick^[k] witnessBalloon).clamps := by
    intro k hk
    obtain rfl : k = 0 := by omega
    norm_num [Balloon.clamps, witnessBalloon, balloonGravity]
  have h2 : ∀ k < 1, ¬ (Brick.tick^[k] witnessBrick).clamps := by
    intro k hk
    obtain rfl : k = 0 := by omega
    norm_num [Brick.clamps, witnessBrick, brickGravity]
  exact ⟨h1, h2, (C5_gravity_accumulation witnessBalloon witnessBrick 1 rfl rfl h1 h2).1,
    (C5_gravity_accumulation witnessBalloon witnessBrick 1 rfl rfl h1 h2).2.1⟩

/-- A balloon at or above its floor with nonnegative velocity never takes the
clamp branch on the next tick; that tick adds gravity to the velocity, does not
decrease `y`, and re-establishes the precondition. -/
theorem Balloon.tick_preserves_rising (b : Balloon)
    (hy : b.circle.radius ≤ b.circle.y) (hv : 0 ≤ b.velocity_y) :
    ¬ b.clamps ∧ b.tick.velocity_y = b.velocity_y + balloonGravity ∧
    b.circle.y ≤ b.tick.circle.y ∧
    b.tick.circle.radius ≤ b.tick.circle.y ∧ 0 ≤ b.tick.velocity_y := by
  have hg : (0 : ℚ) < balloonGravity := by norm_num [balloonGravity]
  have hnc : ¬ b.clamps := by
    unfold Balloon.clamps
    rw [not_lt]
    linarith
  rw [Balloon.tick_of_not_clamps _ hnc]
  dsimp only
  exact ⟨hnc, rfl, by linarith, by linarith, by linarith⟩

/-- The rising precondition (`y` at or above the radius, nonnegative velocity)
is preserved by any number of ticks. -/
theorem Balloon.iterate_rising (b : Balloon)
    (hy : b.circle.radius ≤ b.circle.y) (hv : 0 ≤ b.velocity_y) (n : ℕ) :
    (Balloon.tick^[n] b).circle.radius ≤ (Balloon.tick^[n] b).circle.y ∧
    0 ≤ (Balloon.tick^[n] b).velocity_y := by
  induction n with
  | zero => simpa using ⟨hy, hv⟩
  | succ m ih =>
      rw [Function.iterate_succ_apply']
      exact ⟨(Balloon.tick_preserves_rising _ ih.1 ih.2).2.2.2.1,
        (Balloon.tick_preserves_rising _ ih.1 ih.2).2.2.2.2⟩

/-- C10: for every balloon with `y` at or above its radius and velocity at
least 0, no tick in the iterated sequence ever takes the floor-clamp branch;
each tick increases the velocity by the gravity constant `0.10` and never
decreases `y`, so under repeated ticks the balloon rises. -/
theorem C10_balloon_rises (b : Balloon) (n : ℕ)
    (hy : b.circle.radius ≤ b.circle.y) (hv : 0 ≤ b.velocity_y) :
    ¬ (Balloon.tick^[n] b).clamps ∧
    (Balloon.tick^[n + 1] b).velocity_y
        = (Balloon.tick^[n] b).velocity_y + balloonGravity ∧
    balloonGravity = 1 / 10 ∧
    (Balloon.tick^[n] b).circle.y ≤ (Balloon.tick^[n + 1] b).circle.y := by
  obtain ⟨h1, h2⟩ := Balloon.iterate_rising b hy hv n
  have h := Balloon.tick_preserves_rising _ h1 h2
  rw [Function.iterate_succ_apply']
  exact ⟨h.1, h.2.1, rfl, h.2.2.1⟩

/-- C10 witness: the no-clamp and monotonicity facts evaluated at a concrete
balloon well above its floor, at the first iteration. -/
theorem C10_balloon_rises_witness :
    witnessBalloon.circle.radius ≤ witnessBalloon.circle.y ∧
    (0 : ℚ) ≤ witnessBalloon.velocity_y ∧
    ¬ (Balloon.tick^[0] witnessBalloon).clamps := by
  refine ⟨by norm_num [witnessBalloon], by norm_num [witnessBalloon], ?_⟩
  exact (C10_balloon_rises witnessBalloon 0 (by norm_num [witnessBalloon])
    (by norm_num [witnessBalloon])).1

/-- Processing the head index first: `tickInOrder` over `i :: rest` modifies
index `i` and continues with `rest`. -/
theorem tickInOrder_cons (l : List Entity) (i : ℕ) (rest : List ℕ) :
    tickInOrder l (i :: rest) = tickInOrder (l.modify Entity.tick i) rest := rfl

/-- Element view of `tickInOrder` for a duplicate-free order: position `j`
holds the ticked entity exactly when `j` occurs in the order, and the original
entity otherwise. -/
theorem tickInOrder_getElem? (order : List ℕ) :
    ∀ (l : List Entity), order.Nodup → ∀ j : ℕ,
      (tickInOrder l order)[j]? =
        if j ∈ order then Entity.tick <$> l[j]? else l[j]? := by
  induction order with
  | nil =>
      intro l _ j
      simp [tickInOrder]
  | cons i rest ih =>
      intro l hnd j
      obtain ⟨hi, hrest⟩ := List.nodup_cons.mp hnd
      rw [tickInOrder_cons, ih _ hrest j]
      by_cases hjr : j ∈ rest
      · have hij : i ≠ j := fun h => hi (h ▸ hjr)
        rw [if_pos hjr, if_pos (List.mem_cons_of_mem _ hjr),
          List.getElem?_modify_ne _ _ hij]
      · rw [if_neg hjr]
        by_cases hji : j = i
        · subst hji
          rw [List.getElem?_modify_eq, if_pos (List.mem_cons_self _ _)]
        · rw [List.getElem?_modify_ne _ _ (fun h => hji h.symm),
            if_neg (by simp [List.mem_cons, hji, hjr])]

/-- Processing every index of the list exactly once, in any order, is the same
as mapping the one-step physics over the list. -/
theorem tickInOrder_perm_range (l : List Entity) (order : List ℕ)
    (h : order.Perm (List.range l.length)) :
    tickInOrder l order = l.map Entity.tick := by
  have hnd : order.Nodup := h.symm.nodup (List.nodup_range _)
  apply List.ext_getElem?
  intro j
  rw [tickInOrder_getElem? order l hnd j, List.getElem?_map]
  by_cases hj : j < l.length
  · rw [if_pos (h.mem_iff.mpr (List.mem_range.mpr hj))]
    rfl
  · have h1 : j ∉ order := fun hm => hj (List.mem_range.mp (h.mem_iff.mp hm))
    rw [if_neg h1, List.getElem?_eq_none (by omega)]
    rfl

/-- C8: a `Tick` message applies each settled entity's one-step physics
independently — processing the indices of the settled list in any
permutation of front-to-back order yields exactly the entity list the update
function produces. -/
theorem C8_tick_order_immaterial (height : ℕ) (coin : Bool) (m : Model)
    (order : List ℕ) (h : order.Perm (List.range m.entities.length)) :
    tickInOrder m.entities order = (Tui.update height coin m .Tick).1.entities := by
  rw [tickInOrder_perm_range m.entities order h]
  rfl

/-- A two-entity model used to evaluate the order-independence theorem. -/
def witnessModel : Model :=
  { hover_pos := (0, 0)
    entities := [.balloon witnessBalloon, .brick witnessBrick]
    hover_entity := Model.initial.hover_entity
    fps_counter := FpsCounter.new }

/-- C8 witness: processing the two settled entities back-to-front (`[1, 0]`)
gives the same list as the update function's front-to-back loop. -/
theorem C8_tick_order_immaterial_witness :
    ([1, 0] : List ℕ).Perm (List.range witnessModel.entities.length) ∧
    tickInOrder witnessModel.entities [1, 0]
      = (Tui.update 24 true witnessModel .Tick).1.entities := by
  have hp : ([1, 0] : List ℕ).Perm (List.range witnessModel.entities.length) := by
    decide
  exact ⟨hp, C8_tick_order_immaterial 24 true witnessModel [1, 0] hp⟩

/-- Every update step preserves "the preview entity's velocity is 0": `Quit`,
`Tick` and `Render` do not touch the preview, `MouseHoverPos` changes only its
position, and `MouseLeftClick` installs a fresh preview with velocity 0. -/
theorem update_preserves_preview_velocity (height : ℕ) (coin : Bool) (m : Model)
    (msg : Message) (h : m.hover_entity.velocity_y = 0) :
    (Tui.update height coin m msg).1.hover_entity.velocity_y = 0 := by
  cases msg with
  | Quit => exact h
  | Tick => exact h
  | Render => exact h
  | MouseLeftClick row col => cases coin <;> simp [Tui.update, Entity.velocity_y]
  | MouseHoverPos row col =>
      cases he : m.hover_entity <;> simp_all [Tui.update, Entity.velocity_y]

/-- The preview-velocity invariant carries over whole message sequences. -/
theorem runUpdates_preview_velocity (m : Model) (h : m.hover_entity.velocity_y = 0)
    (steps : List StepInput) :
    (runUpdates m steps).hover_entity.velocity_y = 0 := by
  induction steps generalizing m with
  | nil => exact h
  | cons s rest ih =>
      exact ih _ (update_preserves_preview_velocity s.height s.coin m s.msg h)

/-- C9: the preview entity's velocity is 0 in the initial model and after
processing every message sequence, and consequently a click always appends an
entity with velocity exactly 0 to the settled list. -/
theorem C9_preview_velocity_always_zero (steps : List StepInput)
    (height : ℕ) (coin : Bool) (row col : ℕ) :
    Model.initial.hover_entity.velocity_y = 0 ∧
    (runUpdates Model.initial steps).hover_entity.velocity_y = 0 ∧
    ((Tui.update height coin (runUpdates Model.initial steps)
        (.MouseLeftClick row col)).1.entities.getLast?.map Entity.velocity_y)
      = some 0 := by
  have h0 : Model.initial.hover_entity.velocity_y = 0 := rfl
  have hinv := runUpdates_preview_velocity Model.initial h0 steps
  refine ⟨h0, hinv, ?_⟩
  cases coin <;> simp [Tui.update, List.getLast?_concat, hinv]

end AsyncRatatui
